import Mathlib

/-!
Shallow embedding of the mediaForge backend (Rust) and proofs about it.

Source files embedded:
- src/backend/src/services/quota.rs   (admission control)
- src/backend/src/services/queue.rs   (bounded queue + status store)
- src/backend/src/services/worker.rs  (dispatcher state machine)
- src/backend/src/services/lut.rs     (3D LUT parsing and application)
- src/backend/src/services/processing.rs (background removal, color grading)

Conventions: Rust u8/u32/usize become Nat, i32/i64 become Int with explicit
bounds where overflow matters; f32/f64 arithmetic is embedded over the
rationals, with comments at each use stating why the rational computation
agrees with the floating-point one at the inputs the theorems exercise;
fallible Rust code returns Except.
-/

namespace MediaForge

/-! ### Admission control: src/backend/src/services/quota.rs -/

/-- QuotaConfig from config.rs (fields are Rust u32). -/
structure QuotaConfig where
  free_tier_image_daily : Nat
  free_tier_video_daily : Nat
  free_tier_concurrent : Nat
  pro_tier_video_daily : Nat
  pro_tier_concurrent : Nat
deriving Repr, DecidableEq

/-- Rust i64::MAX, the "unlimited" ceiling used by quota.rs. -/
def i64Max : Int := 9223372036854775807

/-- The `limit` match inside check_quota (quota.rs lines 12-19):
tier and job_kind are matched in source order, with i64::MAX for every
pair that has no configured ceiling. -/
def dailyLimit (cfg : QuotaConfig) (tier job_kind : String) : Int :=
  match tier, job_kind with
  | "free", "image" => (cfg.free_tier_image_daily : Int)
  | "free", "video" => (cfg.free_tier_video_daily : Int)
  | "free", _ => i64Max
  | "pro", "video" => (cfg.pro_tier_video_daily : Int)
  | "pro", _ => i64Max
  | _, _ => i64Max

/-- check_quota (quota.rs lines 6-26) with the DB count supplied as an
argument: the function compares the externally supplied count of jobs
today against the tier-derived ceiling and errors when count >= limit. -/
def check_quota (cfg : QuotaConfig) (tier job_kind : String) (count : Int) :
    Except String Unit :=
  let limit := dailyLimit cfg tier job_kind
  if count ≥ limit then
    Except.error s!"Daily quota exceeded ({count}/{limit})."
  else
    Except.ok ()

/-- The `limit` match inside check_concurrent (quota.rs lines 34-38). -/
def concurrentLimit (cfg : QuotaConfig) (tier : String) : Int :=
  match tier with
  | "free" => (cfg.free_tier_concurrent : Int)
  | "pro" => (cfg.pro_tier_concurrent : Int)
  | _ => i64Max

/-- check_concurrent (quota.rs lines 29-45) with the active-jobs count
supplied as an argument. -/
def check_concurrent (cfg : QuotaConfig) (tier : String) (active : Int) :
    Except String Unit :=
  let limit := concurrentLimit cfg tier
  if active ≥ limit then
    Except.error s!"Concurrent job limit exceeded ({active}/{limit})."
  else
    Except.ok ()

/-- Helper: admission outcome of check_quota as a comparison. -/
lemma check_quota_ok_iff (cfg : QuotaConfig) (tier kind : String) (count : Int) :
    check_quota cfg tier kind count = Except.ok () ↔
      count < dailyLimit cfg tier kind := by
  unfold check_quota
  dsimp only
  split
  · constructor
    · intro h; cases h
    · intro h; omega
  · constructor
    · intro _; omega
    · intro _; rfl

/-- Helper: admission outcome of check_concurrent as a comparison. -/
lemma check_concurrent_ok_iff (cfg : QuotaConfig) (tier : String) (active : Int) :
    check_concurrent cfg tier active = Except.ok () ↔
      active < concurrentLimit cfg tier := by
  unfold check_concurrent
  dsimp only
  split
  · constructor
    · intro h; cases h
    · intro h; omega
  · constructor
    · intro _; omega
    · intro _; rfl

end MediaForge

namespace MediaForge

/-! ### Theorems for claim C6 -/

/-- C6: the daily-quota check denies exactly when the supplied count is at
least the tier ceiling, and the concurrency check denies exactly when the
active count is at least the concurrency ceiling; a free-tier user with
daily image limit 10 and 10 jobs today is denied, and with concurrency
limit 1 a user with 0 active jobs is admitted and one with 1 active job
is denied. -/
theorem check_quota_check_concurrent_deny_iff :
    (∀ (cfg : QuotaConfig) (tier kind : String) (count : Int),
        check_quota cfg tier kind count = Except.ok () ↔
          count < dailyLimit cfg tier kind)
    ∧ (∀ (cfg : QuotaConfig) (tier : String) (active : Int),
        check_concurrent cfg tier active = Except.ok () ↔
          active < concurrentLimit cfg tier)
    ∧ (∀ cfg : QuotaConfig, cfg.free_tier_image_daily = 10 →
        check_quota cfg "free" "image" 10 ≠ Except.ok ())
    ∧ (∀ cfg : QuotaConfig, cfg.free_tier_concurrent = 1 →
        check_concurrent cfg "free" 0 = Except.ok ()
          ∧ check_concurrent cfg "free" 1 ≠ Except.ok ()) := by
  refine ⟨check_quota_ok_iff, check_concurrent_ok_iff, ?_, ?_⟩
  · intro cfg h hcontra
    have hd : dailyLimit cfg "free" "image" = (cfg.free_tier_image_daily : Int) := rfl
    rw [check_quota_ok_iff, hd, h] at hcontra
    omega
  · intro cfg h
    have hc : concurrentLimit cfg "free" = (cfg.free_tier_concurrent : Int) := rfl
    constructor
    · rw [check_concurrent_ok_iff, hc, h]
      omega
    · intro hcontra
      rw [check_concurrent_ok_iff, hc, h] at hcontra
      omega

/-- Witness for C6 at a concrete configuration (the default config values
from config.rs): limit 10 with count 10 denies, concurrency limit 1 with
0 active admits and with 1 active denies. -/
theorem check_quota_check_concurrent_deny_iff_witness :
    check_quota ⟨10, 3, 1, 50, 5⟩ "free" "image" 10 ≠ Except.ok ()
    ∧ check_concurrent ⟨10, 3, 1, 50, 5⟩ "free" 0 = Except.ok ()
    ∧ check_concurrent ⟨10, 3, 1, 50, 5⟩ "free" 1 ≠ Except.ok () :=
  ⟨check_quota_check_concurrent_deny_iff.2.2.1 ⟨10, 3, 1, 50, 5⟩ rfl,
   (check_quota_check_concurrent_deny_iff.2.2.2 ⟨10, 3, 1, 50, 5⟩ rfl).1,
   (check_quota_check_concurrent_deny_iff.2.2.2 ⟨10, 3, 1, 50, 5⟩ rfl).2⟩

/-! ### Theorems for claim C10 -/

/-- Helper: for a (tier, kind) pair with no configured ceiling the daily
limit is i64::MAX. -/
lemma dailyLimit_eq_max (cfg : QuotaConfig) (tier kind : String)
    (h : ¬((tier = "free" ∧ (kind = "image" ∨ kind = "video")) ∨
        (tier = "pro" ∧ kind = "video"))) :
    dailyLimit cfg tier kind = i64Max := by
  unfold dailyLimit
  split
  · exact absurd (Or.inl ⟨rfl, Or.inl rfl⟩) h
  · exact absurd (Or.inl ⟨rfl, Or.inr rfl⟩) h
  · rfl
  · exact absurd (Or.inr ⟨rfl, rfl⟩) h
  · rfl
  · rfl

/-- Helper: for a tier other than free and pro the concurrency limit is
i64::MAX. -/
lemma concurrentLimit_eq_max (cfg : QuotaConfig) (tier : String)
    (h1 : tier ≠ "free") (h2 : tier ≠ "pro") :
    concurrentLimit cfg tier = i64Max := by
  unfold concurrentLimit
  split
  · exact absurd rfl h1
  · exact absurd rfl h2
  · rfl

/-- C10 counterexample: the claim says unconfigured pairs admit regardless
of the supplied count, but a count equal to i64::MAX is denied, because the
comparison is count >= limit with limit = i64::MAX. -/
theorem check_quota_unrecognized_tier_denies_at_max :
    check_quota ⟨10, 3, 1, 50, 5⟩ "enterprise" "image" i64Max ≠ Except.ok () := by
  intro h
  rw [check_quota_ok_iff] at h
  have hd : dailyLimit ⟨10, 3, 1, 50, 5⟩ "enterprise" "image" = i64Max := rfl
  rw [hd] at h
  omega

/-- C10 amended: for every (tier, job_kind) pair other than (free, image),
(free, video) and (pro, video) the daily limit is i64::MAX and the check
admits every count strictly below i64::MAX (a count equal to i64::MAX is
denied since the comparison is count >= limit); likewise the concurrency
check for any tier other than free and pro. -/
theorem unconfigured_pairs_unlimited :
    ∀ (cfg : QuotaConfig) (tier kind : String) (count : Int),
      (¬((tier = "free" ∧ (kind = "image" ∨ kind = "video")) ∨
          (tier = "pro" ∧ kind = "video")) →
        dailyLimit cfg tier kind = i64Max ∧
          (count < i64Max → check_quota cfg tier kind count = Except.ok ()))
      ∧ (tier ≠ "free" → tier ≠ "pro" →
        concurrentLimit cfg tier = i64Max ∧
          (count < i64Max → check_concurrent cfg tier count = Except.ok ())) := by
  intro cfg tier kind count
  constructor
  · intro h
    have hd := dailyLimit_eq_max cfg tier kind h
    refine ⟨hd, fun hlt => ?_⟩
    rw [check_quota_ok_iff, hd]
    exact hlt
  · intro h1 h2
    have hc := concurrentLimit_eq_max cfg tier h1 h2
    refine ⟨hc, fun hlt => ?_⟩
    rw [check_concurrent_ok_iff, hc]
    exact hlt

/-- Witness for the amended C10: tier "enterprise" is admitted for both
checks at count 5. -/
theorem unconfigured_pairs_unlimited_witness :
    check_quota ⟨10, 3, 1, 50, 5⟩ "enterprise" "image" 5 = Except.ok ()
    ∧ check_concurrent ⟨10, 3, 1, 50, 5⟩ "enterprise" 5 = Except.ok () :=
  ⟨((unconfigured_pairs_unlimited ⟨10, 3, 1, 50, 5⟩ "enterprise" "image" 5).1
      (by decide)).2 (by decide),
   ((unconfigured_pairs_unlimited ⟨10, 3, 1, 50, 5⟩ "enterprise" "image" 5).2
      (by decide) (by decide)).2 (by decide)⟩

/-! ### Queue: src/backend/src/services/queue.rs -/

/-- JobStatus (queue.rs lines 26-32). -/
inductive JStatus where
  | queued
  | processing (progress : Nat)
  | completed (result_url : String)
  | failed (error : String)
deriving Repr, DecidableEq

/-- State of the Queue relevant to one enqueue call: the bounded tokio
channel (capacity fixed at Queue::new, current number of buffered
messages, whether the receiver has been dropped) and the optional redis
mirror (whether it is configured and whether an rpush would succeed). -/
structure QueueState where
  capacity : Nat
  buffered : Nat
  closed : Bool
  hasRedis : Bool
  redisOk : Bool
deriving Repr, DecidableEq

/-- Outcome of Queue::enqueue as seen by the caller. tokio mpsc
Sender::send returns Ok when the bounded buffer has capacity, returns
Err(SendError) only when the receiver has been dropped, and otherwise
stays pending (the await suspends) until capacity frees: a full open
channel does not produce a return value. `suspended` models that pending
state. -/
inductive EnqueueOutcome where
  | ok
  | suspended
  | errClosed
deriving Repr, DecidableEq

/-- The local-channel path: self.sender.send(job).await (queue.rs lines
85 and 89). -/
def localSend (st : QueueState) : EnqueueOutcome :=
  if st.closed then EnqueueOutcome.errClosed
  else if st.buffered < st.capacity then EnqueueOutcome.ok
  else EnqueueOutcome.suspended

/-- Queue::enqueue (queue.rs lines 65-91), after the JobStatus::Queued
insert into the status map: with redis configured the job is rpushed to
the durable list (falling back to the local channel on redis error);
without redis it goes to the local channel. -/
def enqueue (st : QueueState) : EnqueueOutcome :=
  if st.hasRedis then
    if st.redisOk then EnqueueOutcome.ok else localSend st
  else localSend st

/-! ### Theorem for claim C3 -/

/-- C3 (code bug evidence): with no redis mirror and the bounded buffer
already full (capacity 1, one message buffered, receiver alive), enqueue
does not return a QueueFull error: the send future suspends until the
worker drains the channel, and the only error return of enqueue on the
local path is the channel-closed error. -/
theorem enqueue_full_buffer_suspends :
    enqueue ⟨1, 1, false, false, false⟩ = EnqueueOutcome.suspended
    ∧ ∀ st : QueueState, enqueue st = EnqueueOutcome.errClosed →
        st.closed = true := by
  constructor
  · rfl
  · intro st h
    by_contra hc
    simp only [Bool.not_eq_true] at hc
    unfold enqueue localSend at h
    rw [hc] at h
    simp only [Bool.false_eq_true, if_false] at h
    split at h
    · split at h
      · cases h
      · split at h <;> cases h
    · split at h <;> cases h

/-- Witness for the closure-only-error half of the C3 theorem: a closed
channel state that makes enqueue return the error. -/
theorem enqueue_full_buffer_suspends_witness :
    (⟨1, 0, true, false, false⟩ : QueueState).closed = true :=
  enqueue_full_buffer_suspends.2 ⟨1, 0, true, false, false⟩ rfl

/-! ### Images and f32 helpers

Pixels are RGBA with Rust u8 channels embedded as Nat; the u8 range
invariant (value at most 255) is carried as a hypothesis where a proof
needs it. The image buffer is row-major, as in the image crate. -/

/-- One RGBA pixel (image::Rgba<u8>). -/
structure Rgba where
  r : Nat
  g : Nat
  b : Nat
  a : Nat
deriving Repr, DecidableEq

/-- An RgbaImage: dimensions plus the row-major pixel buffer. -/
structure Img where
  width : Nat
  height : Nat
  data : List Rgba
deriving Repr, DecidableEq

/-- get_pixel(x, y) on the row-major buffer. The image crate panics when
the coordinate is out of bounds; the model returns a zero pixel there, and
every use in the theorems is under an in-bounds hypothesis. -/
def getPixel (img : Img) (x y : Nat) : Rgba :=
  img.data.getD (y * img.width + x) ⟨0, 0, 0, 0⟩

/-- Map a function over every pixel, keeping the dimensions: the shape of
every per-pixel loop in processing.rs. -/
def mapPixels (img : Img) (f : Rgba → Rgba) : Img :=
  ⟨img.width, img.height, img.data.map f⟩

/-- Truncation toward zero of a rational, as Rust float-to-int casts
truncate. -/
def qTrunc (x : ℚ) : Int :=
  if 0 ≤ x then ⌊x⌋ else ⌈x⌉

/-- Rust `as u8` on an f32: truncate toward zero, then saturate into
0..=255 (Rust float casts saturate). The rational argument stands in for
the f32 value; every theorem exercises it only where the f32 computation
is exact. -/
def f32_as_u8 (x : ℚ) : Nat :=
  (min (max (qTrunc x) 0) 255).toNat

/-- Rust f32::clamp(lo, hi). -/
def clampQ (x lo hi : ℚ) : ℚ :=
  min (max x lo) hi

/-- Rust `%` on f32: remainder with the sign of the dividend,
x - y * trunc(x / y). (For y = 0 Rust yields NaN; the model yields x;
no theorem exercises that case.) -/
def qMod (x y : ℚ) : ℚ :=
  x - y * qTrunc (x / y)

/-! ### Background removal: src/backend/src/services/processing.rs -/

/-- estimate_background_color (processing.rs lines 76-93): average the
four corner pixels channel-wise with u32 arithmetic, then cast back to u8
(the cast wraps mod 256; the sum of four u8 values divided by 4 is at most
255, so on real u8 inputs the wrap is the identity). -/
def estimate_background_color (img : Img) : Rgba :=
  let c0 := getPixel img 0 0
  let c1 := getPixel img (img.width - 1) 0
  let c2 := getPixel img 0 (img.height - 1)
  let c3 := getPixel img (img.width - 1) (img.height - 1)
  { r := ((c0.r + c1.r + c2.r + c3.r) / 4) % 256
    g := ((c0.g + c1.g + c2.g + c3.g) / 4) % 256
    b := ((c0.b + c1.b + c2.b + c3.b) / 4) % 256
    a := 255 }

/-- Squared RGB distance. color_distance (processing.rs lines 95-100)
computes the f32 euclidean distance and simple_bg_removal compares it
with 50.0; for u8 channels each squared difference (at most 65025) and
their sum (at most 195075) are exactly representable in f32, f32 sqrt is
correctly rounded and 50.0 is exact, so dist < 50.0 holds iff the exact
squared distance is below 2500. The model uses that integer form. -/
def color_distance_sq (a b : Rgba) : Int :=
  ((a.r : Int) - b.r) ^ 2 + ((a.g : Int) - b.g) ^ 2 + ((a.b : Int) - b.b) ^ 2

/-- simple_bg_removal (processing.rs lines 52-74): estimate the
background color from the corners, then set each output pixel to the
input RGB with alpha 0 when the pixel is within threshold distance of the
background and alpha 255 otherwise. -/
def simple_bg_removal (img : Img) : Img :=
  let bg := estimate_background_color img
  mapPixels img fun p =>
    { r := p.r, g := p.g, b := p.b
      a := if color_distance_sq p bg < 2500 then 0 else 255 }

/-! ### Color grading: src/backend/src/services/processing.rs -/

/-- adjust_brightness (processing.rs lines 197-203): add the amount to
each RGB channel with i32 arithmetic, clamp to 0..=255, cast back to u8
(exact after the clamp); alpha untouched. -/
def adjust_brightness (img : Img) (amount : Int) : Img :=
  let bc := fun (c : Nat) => (min (max ((c : Int) + amount) 0) 255).toNat
  mapPixels img fun p => { r := bc p.r, g := bc p.g, b := bc p.b, a := p.a }

/-- The contrast gain factor (processing.rs line 206). The f32 products
259*(amount+255) and 255*(259-amount) are exact for the i32 amounts the
theorems exercise, so the rational value agrees with the f32 one there. -/
def contrastFactor (amount : Int) : ℚ :=
  (259 * ((amount : ℚ) + 255)) / (255 * (259 - (amount : ℚ)))

/-- adjust_contrast (processing.rs lines 205-213): scale each channel
around the pivot 128 by the gain factor, clamp to 0..=255, cast to u8;
alpha untouched. -/
def adjust_contrast (img : Img) (amount : Int) : Img :=
  let f := contrastFactor amount
  let cc := fun (c : Nat) => f32_as_u8 (clampQ (f * ((c : ℚ) - 128) + 128) 0 255)
  mapPixels img fun p => { r := cc p.r, g := cc p.g, b := cc p.b, a := p.a }

/-- adjust_saturation (processing.rs lines 215-225): blend each channel
toward the luma value by factor (amount+100)/100; alpha untouched. -/
def adjust_saturation (img : Img) (amount : Int) : Img :=
  let f : ℚ := ((amount : ℚ) + 100) / 100
  mapPixels img fun p =>
    let gray : Nat := f32_as_u8 (0.299 * (p.r : ℚ) + 0.587 * (p.g : ℚ) + 0.114 * (p.b : ℚ))
    let sc := fun (c : Nat) =>
      f32_as_u8 (clampQ ((gray : ℚ) + f * ((c : ℚ) - (gray : ℚ))) 0 255)
    { r := sc p.r, g := sc p.g, b := sc p.b, a := p.a }

/-- rgb_to_hsv (processing.rs lines 241-264). -/
def rgb_to_hsv (r g b : Nat) : ℚ × ℚ × ℚ :=
  let rq : ℚ := (r : ℚ) / 255
  let gq : ℚ := (g : ℚ) / 255
  let bq : ℚ := (b : ℚ) / 255
  let mx := max (max rq gq) bq
  let mn := min (min rq gq) bq
  let d := mx - mn
  let h :=
    (if d = 0 then (0 : ℚ)
     else if mx = rq then qMod ((gq - bq) / d) 6
     else if mx = gq then (bq - rq) / d + 2
     else (rq - gq) / d + 4) / 6
  let s := if mx = 0 then (0 : ℚ) else d / mx
  (h, s, mx)

/-- hsv_to_rgb (processing.rs lines 266-285); the sector match on
(h*6) as i32 is truncation toward zero, with every sector outside 0..4
falling to the last arm. -/
def hsv_to_rgb (h s v : ℚ) : Nat × Nat × Nat :=
  let c := v * s
  let x := c * (1 - |qMod (h * 6) 2 - 1|)
  let m := v - c
  let sector := qTrunc (h * 6)
  let rgb : ℚ × ℚ × ℚ :=
    if sector = 0 then (c, x, 0)
    else if sector = 1 then (x, c, 0)
    else if sector = 2 then (0, c, x)
    else if sector = 3 then (0, x, c)
    else if sector = 4 then (x, 0, c)
    else (c, 0, x)
  (f32_as_u8 ((rgb.1 + m) * 255),
   f32_as_u8 ((rgb.2.1 + m) * 255),
   f32_as_u8 ((rgb.2.2 + m) * 255))

/-- adjust_hue (processing.rs lines 227-239): convert to HSV, add
amount/360 to the hue modulo 1.0, convert back; alpha untouched. -/
def adjust_hue (img : Img) (amount : Int) : Img :=
  let shift : ℚ := (amount : ℚ) / 360
  mapPixels img fun p =>
    let hsv := rgb_to_hsv p.r p.g p.b
    let nh := qMod (hsv.1 + shift) 1
    let rgb := hsv_to_rgb nh hsv.2.1 hsv.2.2
    { r := rgb.1, g := rgb.2.1, b := rgb.2.2, a := p.a }

/-- The alpha channels of an image, in buffer order. -/
def alphas (img : Img) : List Nat :=
  img.data.map fun p => p.a

/-- Helper: a pixel map that keeps each alpha keeps dimensions and the
alpha list. -/
lemma mapPixels_alpha_eq (img : Img) (f : Rgba → Rgba)
    (hf : ∀ p, (f p).a = p.a) :
    (mapPixels img f).width = img.width ∧ (mapPixels img f).height = img.height
      ∧ alphas (mapPixels img f) = alphas img := by
  refine ⟨rfl, rfl, ?_⟩
  simp only [alphas, mapPixels, List.map_map]
  exact List.map_congr_left fun p _ => hf p

/-! ### Theorem for claim C9 -/

/-- C9: each of the four manual color-grading adjustments keeps the image
dimensions and the alpha channel of every pixel, for every image and every
amount. -/
theorem color_adjustments_preserve_alpha_and_dims :
    ∀ (img : Img) (amount : Int),
      ((adjust_brightness img amount).width = img.width
        ∧ (adjust_brightness img amount).height = img.height
        ∧ alphas (adjust_brightness img amount) = alphas img)
      ∧ ((adjust_contrast img amount).width = img.width
        ∧ (adjust_contrast img amount).height = img.height
        ∧ alphas (adjust_contrast img amount) = alphas img)
      ∧ ((adjust_saturation img amount).width = img.width
        ∧ (adjust_saturation img amount).height = img.height
        ∧ alphas (adjust_saturation img amount) = alphas img)
      ∧ ((adjust_hue img amount).width = img.width
        ∧ (adjust_hue img amount).height = img.height
        ∧ alphas (adjust_hue img amount) = alphas img) := by
  intro img amount
  exact ⟨mapPixels_alpha_eq img _ fun p => rfl,
    mapPixels_alpha_eq img _ fun p => rfl,
    mapPixels_alpha_eq img _ fun p => rfl,
    mapPixels_alpha_eq img _ fun p => rfl⟩

/-! ### Theorem for claim C8 -/

/-- Helper: truncation of a natural-number cast. -/
lemma qTrunc_natCast (c : Nat) : qTrunc (c : ℚ) = c := by
  have h0 : (0 : ℚ) ≤ (c : ℚ) := by positivity
  simp [qTrunc, h0]

/-- Helper: the u8 cast is the identity on in-range integer values. -/
lemma f32_as_u8_natCast (c : Nat) (hc : c ≤ 255) : f32_as_u8 (c : ℚ) = c := by
  rw [f32_as_u8, qTrunc_natCast]
  omega

/-- Helper: the contrast gain at amount 0 is exactly 1
(259*255 / 255*259, both products exact in f32). -/
lemma contrastFactor_zero : contrastFactor 0 = 1 := by
  unfold contrastFactor
  norm_num

/-- Helper: mapping a function that fixes every member of a list is the
identity. -/
lemma map_eq_self_of_mem {α : Type} (l : List α) (f : α → α)
    (h : ∀ x ∈ l, f x = x) : l.map f = l := by
  induction l with
  | nil => rfl
  | cons a t ih =>
    simp only [List.map_cons, h a (by simp)]
    rw [ih fun x hx => h x (by simp [hx])]

/-- C8: contrast adjustment with amount 0 maps every pixel to itself
(u8 channels, so each channel is at most 255): the gain factor is exactly
1 and the clamp and cast are the identity on in-range channels. -/
theorem adjust_contrast_zero_identity :
    ∀ img : Img, (∀ p ∈ img.data, p.r ≤ 255 ∧ p.g ≤ 255 ∧ p.b ≤ 255) →
      adjust_contrast img 0 = img := by
  intro img hb
  have hcc : ∀ c : Nat, c ≤ 255 →
      f32_as_u8 (clampQ (contrastFactor 0 * ((c : ℚ) - 128) + 128) 0 255) = c := by
    intro c hc
    rw [contrastFactor_zero]
    have he : (1 : ℚ) * ((c : ℚ) - 128) + 128 = (c : ℚ) := by ring
    rw [he]
    have hcl : clampQ (c : ℚ) 0 255 = (c : ℚ) := by
      unfold clampQ
      rw [max_eq_left (by positivity), min_eq_left (by exact_mod_cast hc)]
    rw [hcl]
    exact f32_as_u8_natCast c hc
  cases img with
  | mk w h data =>
    show Img.mk w h (data.map _) = Img.mk w h data
    congr 1
    apply map_eq_self_of_mem
    intro p hp
    obtain ⟨h1, h2, h3⟩ := hb p hp
    cases p with
    | mk pr pg pb pa =>
      dsimp only at h1 h2 h3 ⊢
      rw [hcc pr h1, hcc pg h2, hcc pb h3]

/-- Witness for C8 at a concrete two-pixel image. -/
theorem adjust_contrast_zero_identity_witness :
    adjust_contrast ⟨2, 1, [⟨0, 128, 255, 7⟩, ⟨3, 4, 5, 6⟩]⟩ 0
      = ⟨2, 1, [⟨0, 128, 255, 7⟩, ⟨3, 4, 5, 6⟩]⟩ :=
  adjust_contrast_zero_identity ⟨2, 1, [⟨0, 128, 255, 7⟩, ⟨3, 4, 5, 6⟩]⟩
    (by decide)

/-! ### Theorem for claim C7 -/

/-- Helper: getD at an in-bounds index is a member of the list. -/
lemma getD_mem_of_lt {l : List Rgba} {n : Nat} (h : n < l.length) (d : Rgba) :
    l.getD n d ∈ l := by
  rw [List.getD_eq_getElem?_getD, List.getElem?_eq_getElem h]
  exact List.getElem_mem h

/-- Helper: bounds of the four corner indices of a w-by-h buffer. -/
lemma corner_indices_lt (w h : Nat) (hw : 0 < w) (hh : 0 < h) :
    0 < w * h ∧ (w - 1) < w * h ∧ (h - 1) * w < w * h
      ∧ (h - 1) * w + (w - 1) < w * h := by
  have key : (h - 1) * w + w = w * h := by
    cases h with
    | zero => omega
    | succ b =>
      simp only [Nat.succ_sub_one]
      ring
  have hww : w ≤ w * h := Nat.le_mul_of_pos_right w hh
  exact ⟨Nat.mul_pos hw hh, by omega, by omega, by omega⟩

/-- C7: on a non-empty image whose pixels all share the RGB channels of a
color c (u8 channels), simple_bg_removal outputs alpha 0 at every pixel:
the corner average is exactly c and every pixel is at distance 0 from it. -/
theorem remove_bg_single_color_transparent :
    ∀ (img : Img) (c : Rgba),
      0 < img.width → 0 < img.height →
      img.data.length = img.width * img.height →
      c.r ≤ 255 → c.g ≤ 255 → c.b ≤ 255 →
      (∀ p ∈ img.data, p.r = c.r ∧ p.g = c.g ∧ p.b = c.b) →
      ((simple_bg_removal img).data.all fun q => q.a == 0) = true := by
  intro img c hw hh hlen hr hg hbb hcol
  obtain ⟨hpos, hi1, hi2, hi3⟩ :=
    corner_indices_lt img.width img.height hw hh
  have hmem : ∀ x y, y * img.width + x < img.width * img.height →
      getPixel img x y ∈ img.data := by
    intro x y hxy
    exact getD_mem_of_lt (by omega) _
  have hc0 := hcol _ (hmem 0 0 (by simpa using hpos))
  have hc1 := hcol _ (hmem (img.width - 1) 0 (by simpa using hi1))
  have hc2 := hcol _ (hmem 0 (img.height - 1) (by simpa using hi2))
  have hc3 := hcol _ (hmem (img.width - 1) (img.height - 1) (by simpa using hi3))
  have hbg : estimate_background_color img =
      { r := c.r, g := c.g, b := c.b, a := 255 } := by
    unfold estimate_background_color
    obtain ⟨e0r, e0g, e0b⟩ := hc0
    obtain ⟨e1r, e1g, e1b⟩ := hc1
    obtain ⟨e2r, e2g, e2b⟩ := hc2
    obtain ⟨e3r, e3g, e3b⟩ := hc3
    simp only [e0r, e0g, e0b, e1r, e1g, e1b, e2r, e2g, e2b, e3r, e3g, e3b]
    congr 1 <;> omega
  rw [List.all_eq_true]
  intro q hq
  simp only [simple_bg_removal, mapPixels, List.mem_map] at hq
  obtain ⟨p, hp, rfl⟩ := hq
  obtain ⟨er, eg, eb⟩ := hcol p hp
  have hdist : color_distance_sq p (estimate_background_color img) = 0 := by
    rw [hbg]
    simp [color_distance_sq, er, eg, eb]
  simp [hdist]

/-- Witness for C7 at a concrete one-pixel image. -/
theorem remove_bg_single_color_transparent_witness :
    ((simple_bg_removal ⟨1, 1, [⟨5, 6, 7, 9⟩]⟩).data.all
      fun q => q.a == 0) = true :=
  remove_bg_single_color_transparent ⟨1, 1, [⟨5, 6, 7, 9⟩]⟩ ⟨5, 6, 7, 9⟩
    (by decide) (by decide) (by decide) (by decide) (by decide) (by decide)
    (by decide)

/-! ### 3D LUT: src/backend/src/services/lut.rs -/

/-- Lut3D (lut.rs lines 16-20): lattice size plus the flattened entries,
red fastest, then green, then blue; entries are u8 RGB triples. -/
structure Lut3D where
  size : Nat
  entries : List (Nat × Nat × Nat)
deriving Repr, DecidableEq

/-- Lut3D::index (lut.rs lines 122-125). -/
def Lut3D.index (size r g b : Nat) : Nat :=
  r + g * size + b * size * size

/-- The per-pixel body of Lut3D::apply_to_image (lut.rs lines 103-117):
map each u8 channel into lattice index space with integer arithmetic,
look up the flattened entry, preserve alpha. Rust indexing panics when
the index is out of range; the model reads a zero entry there, and the
theorems only exercise in-bounds lookups. -/
def Lut3D.applyPixel (lut : Lut3D) (p : Rgba) : Rgba :=
  let ri := p.r * (lut.size - 1) / 255
  let gi := p.g * (lut.size - 1) / 255
  let bi := p.b * (lut.size - 1) / 255
  let e := lut.entries.getD (Lut3D.index lut.size ri gi bi) (0, 0, 0)
  ⟨e.1, e.2.1, e.2.2, p.a⟩

/-- Lut3D::apply_to_image (lut.rs lines 98-120). -/
def Lut3D.apply_to_image (lut : Lut3D) (img : Img) : Img :=
  mapPixels img lut.applyPixel

/-- A pixel whose channel values are lattice-aligned coordinates of a LUT
of the given size: each channel value equals i*255/(size-1) exactly (the
scaled lattice coordinate), stated multiplicatively. -/
def latticeAlignedB (size : Nat) (p : Rgba) : Bool :=
  ((List.range size).any fun i => p.r * (size - 1) == i * 255)
  && ((List.range size).any fun j => p.g * (size - 1) == j * 255)
  && ((List.range size).any fun k => p.b * (size - 1) == k * 255)

/-- A LUT whose entries equal the identity mapping: the entry at lattice
coordinate (i, j, k) holds the coordinates scaled into u8 range. -/
def IdentityLut (lut : Lut3D) : Prop :=
  ∀ i < lut.size, ∀ j < lut.size, ∀ k < lut.size,
    lut.entries.getD (Lut3D.index lut.size i j k) (0, 0, 0) =
      (i * 255 / (lut.size - 1), j * 255 / (lut.size - 1),
        k * 255 / (lut.size - 1))

instance (lut : Lut3D) : Decidable (IdentityLut lut) := by
  unfold IdentityLut
  exact inferInstance

/-! ### Theorem for claim C4 -/

/-- Helper: on a lattice-aligned pixel an identity LUT reproduces the
pixel. -/
lemma applyPixel_aligned (lut : Lut3D) (hs : 2 ≤ lut.size)
    (hid : IdentityLut lut) (p : Rgba)
    (hp : latticeAlignedB lut.size p = true) :
    lut.applyPixel p = p := by
  simp only [latticeAlignedB, Bool.and_eq_true, List.any_eq_true,
    List.mem_range, beq_iff_eq] at hp
  obtain ⟨⟨⟨i, hi, hir⟩, ⟨j, hj, hjg⟩⟩, ⟨k, hk, hkb⟩⟩ := hp
  have h255 : 0 < 255 := by norm_num
  have hsz : 0 < lut.size - 1 := by omega
  have hri : p.r * (lut.size - 1) / 255 = i := by
    rw [hir]
    exact Nat.mul_div_cancel i h255
  have hgi : p.g * (lut.size - 1) / 255 = j := by
    rw [hjg]
    exact Nat.mul_div_cancel j h255
  have hbi : p.b * (lut.size - 1) / 255 = k := by
    rw [hkb]
    exact Nat.mul_div_cancel k h255
  have hentry := hid i hi j hj k hk
  have hback : ∀ c m : Nat, c * (lut.size - 1) = m * 255 →
      m * 255 / (lut.size - 1) = c := by
    intro c m hcm
    rw [← hcm]
    exact Nat.mul_div_cancel c hsz
  unfold Lut3D.applyPixel
  rw [hri, hgi, hbi]
  dsimp only
  rw [hentry]
  cases p with
  | mk pr pg pb pa =>
    dsimp only at hir hjg hkb ⊢
    rw [hback pr i hir, hback pg j hjg, hback pb k hkb]

/-- C4: applying a LUT whose entries are the identity mapping reproduces
the input pixel (RGB and alpha) at every buffer position holding a
lattice-aligned pixel, for every image. -/
theorem lut_identity_reproduces_aligned_pixels :
    ∀ (lut : Lut3D) (img : Img),
      2 ≤ lut.size →
      lut.entries.length = lut.size * lut.size * lut.size →
      IdentityLut lut →
      ∀ n : Nat,
        latticeAlignedB lut.size (img.data.getD n ⟨0, 0, 0, 0⟩) = true →
        (lut.apply_to_image img).data.getD n ⟨0, 0, 0, 0⟩
          = img.data.getD n ⟨0, 0, 0, 0⟩ := by
  intro lut img hs _hlen hid n hal
  show (img.data.map lut.applyPixel).getD n _ = _
  rw [List.getD_eq_getElem?_getD, List.getD_eq_getElem?_getD,
    List.getElem?_map] at *
  cases hx : img.data[n]? with
  | none => simp
  | some x =>
    rw [hx] at hal
    simp only [Option.map_some', Option.getD_some] at hal ⊢
    exact applyPixel_aligned lut hs hid x hal

/-- Witness for C4: the 2x2x2 identity LUT reproduces a magenta pixel
whose channels 255 and 0 are lattice-aligned for size 2. -/
theorem lut_identity_reproduces_aligned_pixels_witness :
    (Lut3D.apply_to_image
        ⟨2, [(0, 0, 0), (255, 0, 0), (0, 255, 0), (255, 255, 0),
             (0, 0, 255), (255, 0, 255), (0, 255, 255), (255, 255, 255)]⟩
        ⟨1, 1, [⟨255, 0, 255, 77⟩]⟩).data.getD 0 ⟨0, 0, 0, 0⟩
      = (⟨1, 1, [⟨255, 0, 255, 77⟩]⟩ : Img).data.getD 0 ⟨0, 0, 0, 0⟩ :=
  lut_identity_reproduces_aligned_pixels
    ⟨2, [(0, 0, 0), (255, 0, 0), (0, 255, 0), (255, 255, 0),
         (0, 0, 255), (255, 0, 255), (0, 255, 255), (255, 255, 255)]⟩
    ⟨1, 1, [⟨255, 0, 255, 77⟩]⟩
    (by decide) (by decide) (by decide) 0 (by decide)

/-! ### .cube parsing: Lut3D::from_cube (lut.rs lines 25-95)

The source reads the file line by line. The model takes the classified
line stream as input: a line is a LUT_3D_SIZE directive (carrying the
parse result of its second token, which the source stores even when the
parse fails, i.e. as None), a line of exactly three numeric tokens
(carried as exact rationals standing in for the parsed f32 values), or
any other line (blank, comment, unknown directive, short directive:
all skipped). -/

/-- One classified line of a .cube file. -/
inductive CubeLine where
  | sizeDirective (n : Option Nat)
  | triple (r g b : ℚ)
  | other
deriving Repr, DecidableEq

/-- The loop body of from_cube (lut.rs lines 32-61): a size directive
overwrites the stored size with its parse result, a numeric triple is
appended to the value list, everything else is skipped. -/
def scanStep (acc : Option Nat × List (ℚ × ℚ × ℚ)) (l : CubeLine) :
    Option Nat × List (ℚ × ℚ × ℚ) :=
  match l with
  | CubeLine.sizeDirective n => (n, acc.2)
  | CubeLine.triple r g b => (acc.1, acc.2 ++ [(r, g, b)])
  | CubeLine.other => acc

/-- The whole read loop: fold the lines left to right. -/
def scanLines (ls : List CubeLine) : Option Nat × List (ℚ × ℚ × ℚ) :=
  ls.foldl scanStep (none, [])

/-- Models ((n as f64).cbrt()).round() as usize (lut.rs line 68): the
greatest c with c^3 <= n, rounded up when the real cube root is at least
c + 1/2 (8n >= (2c+1)^3). Exact for the argument range of interest: for
n below 2^53 the double-precision cube root is accurate enough that
rounding it agrees with this exact computation. -/
def natCbrtRound (n : Nat) : Nat :=
  let c := Nat.findGreatest (fun r => r * r * r ≤ n) n
  if 8 * n < (2 * c + 1) * (2 * c + 1) * (2 * c + 1) then c else c + 1

/-- The count-mismatch message of lut.rs line 79. -/
def countMismatchMsg (expected found : Nat) : String :=
  s!"Expected {expected} entries but found {found}"

/-- The missing-size message of lut.rs line 72. -/
def missingSizeMsg : String :=
  "Missing LUT_3D_SIZE and cannot infer size"

/-- Conversion of one parsed value to u8 (lut.rs lines 83-92): clamp to
0..1, scale by 255, truncate. -/
def cubeEntryToU8 (x : ℚ) : Nat :=
  f32_as_u8 (clampQ x 0 1 * 255)

/-- The tail of from_cube after size resolution (lut.rs lines 77-94):
check the value count against size^3, then convert the entries. -/
def mkLut (size : Nat) (values : List (ℚ × ℚ × ℚ)) : Except String Lut3D :=
  let expected := size * size * size
  if values.length ≠ expected then
    Except.error (countMismatchMsg expected values.length)
  else
    Except.ok ⟨size, values.map fun v =>
      (cubeEntryToU8 v.1, cubeEntryToU8 v.2.1, cubeEntryToU8 v.2.2)⟩

/-- Lut3D::from_cube (lut.rs lines 25-95) over the classified line
stream: scan the lines, resolve the size (the directive value when one
was seen, else the rounded cube root of the value count when that count
is a positive perfect cube), then check the count and build the LUT. -/
def from_cube (ls : List CubeLine) : Except String Lut3D :=
  let st := scanLines ls
  match st.1 with
  | some s => mkLut s st.2
  | none =>
    let expected := st.2.length
    let root := natCbrtRound expected
    if root * root * root = expected ∧ 0 < expected then mkLut root st.2
    else Except.error missingSizeMsg

/-- The size of a successfully parsed LUT, None on parse failure. -/
def fromCubeSize (ls : List CubeLine) : Option Nat :=
  match from_cube ls with
  | Except.ok l => some l.size
  | Except.error _ => none

/-! ### Theorem for claim C5 -/

/-- Helper: a triple line in the scan fold appends its value. -/
lemma foldl_scanStep_triples (ts : List (ℚ × ℚ × ℚ)) :
    ∀ (o : Option Nat) (vs : List (ℚ × ℚ × ℚ)),
      (ts.map fun t => CubeLine.triple t.1 t.2.1 t.2.2).foldl scanStep (o, vs)
        = (o, vs ++ ts) := by
  induction ts with
  | nil => intro o vs; simp
  | cons t ts ih =>
    intro o vs
    simp only [List.map_cons, List.foldl_cons, scanStep]
    rw [ih]
    simp

/-- Helper: the rounded cube root of a positive perfect cube is its
exact cube root. -/
lemma natCbrtRound_cube (r : Nat) (hr : 0 < r) :
    natCbrtRound (r * r * r) = r := by
  unfold natCbrtRound
  have hfg : Nat.findGreatest (fun c => c * c * c ≤ r * r * r) (r * r * r) = r := by
    rw [Nat.findGreatest_eq_iff]
    refine ⟨?_, fun _ => le_refl _, ?_⟩
    · calc r = r * 1 * 1 := by ring
      _ ≤ r * r * r := Nat.mul_le_mul (Nat.mul_le_mul (le_refl r) hr) hr
    · intro n hn _ hP
      have h1 : r * r < n * n :=
        Nat.mul_lt_mul_of_lt_of_le hn (Nat.le_of_lt hn) (by omega)
      have h2 : r * r * r < n * n * n :=
        Nat.mul_lt_mul_of_lt_of_le h1 (Nat.le_of_lt hn) (by omega)
      omega
  rw [hfg]
  have hexp : (2 * r + 1) * (2 * r + 1) * (2 * r + 1)
      = 8 * (r * r * r) + 12 * (r * r) + 6 * r + 1 := by ring
  rw [if_pos (by omega)]

/-- C5: with a LUT_3D_SIZE n directive followed by exactly n^3 triples,
from_cube succeeds with size n; with a triple count different from n^3 it
fails with the count-mismatch error; without a directive it succeeds with
the integer cube root of the count when that count is a positive perfect
cube, and fails with the missing-size error otherwise. -/
theorem from_cube_size_and_count :
    (∀ (n : Nat) (ts : List (ℚ × ℚ × ℚ)), ts.length = n * n * n →
      fromCubeSize (CubeLine.sizeDirective (some n)
        :: ts.map fun t => CubeLine.triple t.1 t.2.1 t.2.2) = some n)
    ∧ (∀ (n : Nat) (ts : List (ℚ × ℚ × ℚ)), ts.length ≠ n * n * n →
      from_cube (CubeLine.sizeDirective (some n)
          :: ts.map fun t => CubeLine.triple t.1 t.2.1 t.2.2)
        = Except.error (countMismatchMsg (n * n * n) ts.length))
    ∧ (∀ (r : Nat) (ts : List (ℚ × ℚ × ℚ)), 0 < r → ts.length = r * r * r →
      fromCubeSize (ts.map fun t => CubeLine.triple t.1 t.2.1 t.2.2) = some r)
    ∧ (∀ ts : List (ℚ × ℚ × ℚ), (¬ ∃ r, 0 < r ∧ ts.length = r * r * r) →
      from_cube (ts.map fun t => CubeLine.triple t.1 t.2.1 t.2.2)
        = Except.error missingSizeMsg) := by
  have hscan : ∀ (o : Option Nat) (ts : List (ℚ × ℚ × ℚ)),
      scanLines (CubeLine.sizeDirective o
        :: ts.map fun t => CubeLine.triple t.1 t.2.1 t.2.2) = (o, ts) := by
    intro o ts
    unfold scanLines
    simp only [List.foldl_cons, scanStep]
    exact (foldl_scanStep_triples ts o []).trans (by simp)
  have hscanBare : ∀ ts : List (ℚ × ℚ × ℚ),
      scanLines (ts.map fun t => CubeLine.triple t.1 t.2.1 t.2.2)
        = (none, ts) := by
    intro ts
    unfold scanLines
    exact (foldl_scanStep_triples ts none []).trans (by simp)
  refine ⟨?_, ?_, ?_, ?_⟩
  · intro n ts hlen
    unfold fromCubeSize from_cube
    rw [hscan]
    simp only [mkLut]
    rw [if_neg (by simpa using hlen)]
  · intro n ts hlen
    unfold from_cube
    rw [hscan]
    simp only [mkLut]
    rw [if_pos (by simpa using hlen)]
  · intro r ts hr hlen
    unfold fromCubeSize from_cube
    rw [hscanBare]
    simp only
    rw [hlen, natCbrtRound_cube r hr,
      if_pos ⟨rfl, Nat.mul_pos (Nat.mul_pos hr hr) hr⟩]
    simp only [mkLut]
    rw [if_neg (by simp [hlen])]
  · intro ts hne
    unfold from_cube
    rw [hscanBare]
    simp only
    rw [if_neg]
    intro h
    obtain ⟨hcube, hpos⟩ := h
    have hroot : 0 < natCbrtRound ts.length := by
      rcases Nat.eq_zero_or_pos (natCbrtRound ts.length) with h0 | h0
      · rw [h0] at hcube
        simp at hcube
        omega
      · exact h0
    exact hne ⟨natCbrtRound ts.length, hroot, hcube.symm⟩

/-- Witness for C5: a directive of size 2 with 8 triples parses with size
2 and with 7 triples fails with the count mismatch; 8 bare triples infer
size 2; 7 bare triples fail with the missing-size error. -/
theorem from_cube_size_and_count_witness :
    fromCubeSize (CubeLine.sizeDirective (some 2)
        :: (List.replicate 8 ((0 : ℚ), (0 : ℚ), (0 : ℚ))).map
          fun t => CubeLine.triple t.1 t.2.1 t.2.2) = some 2
    ∧ from_cube (CubeLine.sizeDirective (some 2)
        :: (List.replicate 7 ((0 : ℚ), (0 : ℚ), (0 : ℚ))).map
          fun t => CubeLine.triple t.1 t.2.1 t.2.2)
      = Except.error (countMismatchMsg (2 * 2 * 2)
          (List.replicate 7 ((0 : ℚ), (0 : ℚ), (0 : ℚ))).length)
    ∧ fromCubeSize ((List.replicate 8 ((0 : ℚ), (0 : ℚ), (0 : ℚ))).map
        fun t => CubeLine.triple t.1 t.2.1 t.2.2) = some 2
    ∧ from_cube ((List.replicate 7 ((0 : ℚ), (0 : ℚ), (0 : ℚ))).map
        fun t => CubeLine.triple t.1 t.2.1 t.2.2)
      = Except.error missingSizeMsg :=
  ⟨from_cube_size_and_count.1 2 _ (by simp),
   from_cube_size_and_count.2.1 2 _ (by simp),
   from_cube_size_and_count.2.2.1 2 _ (by norm_num) (by simp),
   from_cube_size_and_count.2.2.2 _ (by
     intro h
     obtain ⟨r, hr, hlen⟩ := h
     simp only [List.length_replicate] at hlen
     have hub : r ≤ 7 := by
       by_contra hc
       push_neg at hc
       have : 8 * 8 * 8 ≤ r * r * r :=
         Nat.mul_le_mul (Nat.mul_le_mul hc hc) hc
       omega
     interval_cases r <;> omega)⟩

/-! ### Worker dispatcher: src/backend/src/services/worker.rs

The worker is one long-lived task: per dequeued job it writes
Processing(0) to the status map, parses the job id (skipping the job on
failure), writes progress 0 to the job record, dispatches on the job
type string, and finally writes Completed or Failed to both stores. The
model captures the outcome of every external interaction of one job in
an environment record and computes the exact sequences of status-map and
job-record writes the worker performs for that job. -/

/-- Outcome of one process_* call as the worker loop sees it. panicked
models the Rust index panic asset_ids[0] on an empty asset list in
process_conversion and process_color_grade (worker.rs lines 228 and 304):
the task unwinds and nothing further is written for the job. -/
inductive ProcOutcome where
  | ok (loc : String)
  | err (msg : String)
  | panicked
deriving Repr, DecidableEq

/-- A write to the persisted job record (db.rs update_progress, complete,
fail). -/
inductive DbWrite where
  | progress (status : String) (percent : Nat)
  | complete (loc : String)
  | fail (msg : String)
deriving Repr, DecidableEq

/-- Which background-removal branch the job takes (worker.rs lines
174-192): video input, replace-color supplied, or plain removal. Only
the failure message differs between the branches. -/
inductive BgMode where
  | videoMode
  | replaceMode
  | plainMode
deriving Repr, DecidableEq

/-- Which color-grade branch the job parameters select (worker.rs lines
323-341): LUT location present, else preset present, else manual. Only
the failure message differs between the branches here. -/
inductive GradeMode where
  | lutMode
  | presetMode
  | manualMode
deriving Repr, DecidableEq

/-- Outcomes of the external interactions of one job: the job-id UUID
parse, the job-record fetch, the asset-id JSON parse, the first asset-id
UUID parse, the asset fetch, the transform call, the result-file read
and the storage save. The worker re-parses the same job id inside each
process function (worker.rs lines 134, 219, 295), so one field serves
both parses. -/
structure WorkerEnv where
  parse_job_id : Except String Unit
  fetch_job : Except String (Option Unit)
  parse_asset_ids : Except String (List String)
  parse_asset_id : Except String Unit
  fetch_asset : Except String (Option Unit)
  bg_mode : BgMode
  grade_mode : GradeMode
  transform : Except String Unit
  read_result : Except String Unit
  save_result : Except String String

/-- process_background_removal (worker.rs lines 126-210): returns the
progress checkpoints written to the status map before returning, and the
outcome. Checkpoints 20 and 80 precede the fallible transform and
read/save steps; 100 is written only on the success path. -/
def process_background_removal (env : WorkerEnv) : List Nat × ProcOutcome :=
  match env.parse_job_id with
  | Except.error e => ([], ProcOutcome.err e)
  | Except.ok _ =>
    match env.fetch_job with
    | Except.error e => ([], ProcOutcome.err s!"Failed to fetch job: {e}")
    | Except.ok none => ([], ProcOutcome.err "Job not found")
    | Except.ok (some _) =>
      match env.parse_asset_ids with
      | Except.error e => ([], ProcOutcome.err s!"Invalid asset IDs: {e}")
      | Except.ok ids =>
        if ids.isEmpty then ([], ProcOutcome.err "No assets in job")
        else
          match env.parse_asset_id with
          | Except.error e => ([], ProcOutcome.err e)
          | Except.ok _ =>
            match env.fetch_asset with
            | Except.error e => ([], ProcOutcome.err s!"Failed to fetch asset: {e}")
            | Except.ok none => ([], ProcOutcome.err "Asset not found")
            | Except.ok (some _) =>
              match env.transform with
              | Except.error e =>
                let msg :=
                  match env.bg_mode with
                  | BgMode.videoMode => s!"Background removal failed (video): {e}"
                  | BgMode.replaceMode => s!"Background replacement failed: {e}"
                  | BgMode.plainMode => s!"Background removal failed: {e}"
                ([20], ProcOutcome.err msg)
              | Except.ok _ =>
                match env.read_result with
                | Except.error e => ([20, 80], ProcOutcome.err s!"Failed to read result: {e}")
                | Except.ok _ =>
                  match env.save_result with
                  | Except.error e => ([20, 80], ProcOutcome.err s!"Failed to save result: {e}")
                  | Except.ok loc => ([20, 80, 100], ProcOutcome.ok loc)

/-- process_conversion (worker.rs lines 212-286): like background
removal but with checkpoint 30, no empty-asset check (an empty asset
list panics on asset_ids[0]), and the conversion failure message. -/
def process_conversion (env : WorkerEnv) : List Nat × ProcOutcome :=
  match env.parse_job_id with
  | Except.error e => ([], ProcOutcome.err e)
  | Except.ok _ =>
    match env.fetch_job with
    | Except.error e => ([], ProcOutcome.err s!"Failed to fetch job: {e}")
    | Except.ok none => ([], ProcOutcome.err "Job not found")
    | Except.ok (some _) =>
      match env.parse_asset_ids with
      | Except.error e => ([], ProcOutcome.err s!"Invalid asset IDs: {e}")
      | Except.ok ids =>
        if ids.isEmpty then ([], ProcOutcome.panicked)
        else
          match env.parse_asset_id with
          | Except.error e => ([], ProcOutcome.err e)
          | Except.ok _ =>
            match env.fetch_asset with
            | Except.error e => ([], ProcOutcome.err s!"Failed to fetch asset: {e}")
            | Except.ok none => ([], ProcOutcome.err "Asset not found")
            | Except.ok (some _) =>
              match env.transform with
              | Except.error e => ([30], ProcOutcome.err s!"Conversion failed: {e}")
              | Except.ok _ =>
                match env.read_result with
                | Except.error e => ([30, 80], ProcOutcome.err s!"Failed to read result: {e}")
                | Except.ok _ =>
                  match env.save_result with
                  | Except.error e => ([30, 80], ProcOutcome.err s!"Failed to save result: {e}")
                  | Except.ok loc => ([30, 80, 100], ProcOutcome.ok loc)

/-- process_color_grade (worker.rs lines 288-358): checkpoint 20, no
empty-asset check (panics on asset_ids[0]), and a failure message chosen
by the LUT / preset / manual branch. -/
def process_color_grade (env : WorkerEnv) : List Nat × ProcOutcome :=
  match env.parse_job_id with
  | Except.error e => ([], ProcOutcome.err e)
  | Except.ok _ =>
    match env.fetch_job with
    | Except.error e => ([], ProcOutcome.err s!"Failed to fetch job: {e}")
    | Except.ok none => ([], ProcOutcome.err "Job not found")
    | Except.ok (some _) =>
      match env.parse_asset_ids with
      | Except.error e => ([], ProcOutcome.err s!"Invalid asset IDs: {e}")
      | Except.ok ids =>
        if ids.isEmpty then ([], ProcOutcome.panicked)
        else
          match env.parse_asset_id with
          | Except.error e => ([], ProcOutcome.err e)
          | Except.ok _ =>
            match env.fetch_asset with
            | Except.error e => ([], ProcOutcome.err s!"Failed to fetch asset: {e}")
            | Except.ok none => ([], ProcOutcome.err "Asset not found")
            | Except.ok (some _) =>
              match env.transform with
              | Except.error e =>
                let msg :=
                  match env.grade_mode with
                  | GradeMode.lutMode => s!"LUT application failed: {e}"
                  | GradeMode.presetMode => s!"Preset application failed: {e}"
                  | GradeMode.manualMode => s!"Color grading failed: {e}"
                ([20], ProcOutcome.err msg)
              | Except.ok _ =>
                match env.read_result with
                | Except.error e => ([20, 80], ProcOutcome.err s!"Failed to read result: {e}")
                | Except.ok _ =>
                  match env.save_result with
                  | Except.error e => ([20, 80], ProcOutcome.err s!"Failed to save result: {e}")
                  | Except.ok loc => ([20, 80, 100], ProcOutcome.ok loc)

/-- The job-type dispatch of the worker loop (worker.rs lines 51-83);
an unknown type yields the error result immediately. -/
def dispatch (env : WorkerEnv) (jobType : String) : List Nat × ProcOutcome :=
  match jobType with
  | "remove_bg" => process_background_removal env
  | "convert" => process_conversion env
  | "color_grade" => process_color_grade env
  | _ => ([], ProcOutcome.err "Unknown job type")

/-- One iteration of the worker loop for one dequeued job (worker.rs
lines 28-120): the status-map writes and the job-record writes, in
order. Processing(0) is written first; a malformed job id then skips the
job (continue) with no record write and no terminal status; otherwise
progress 0 goes to the record, the job is dispatched, and the outcome is
written to both stores (nothing further on a panic). -/
def runJob (env : WorkerEnv) (jobType : String) : List JStatus × List DbWrite :=
  let memHead := [JStatus.processing 0]
  match env.parse_job_id with
  | Except.error _ => (memHead, [])
  | Except.ok _ =>
    let dbHead := [DbWrite.progress "processing" 0]
    let pr := dispatch env jobType
    let mem := memHead ++ pr.1.map JStatus.processing
    match pr.2 with
    | ProcOutcome.ok loc =>
      (mem ++ [JStatus.completed loc], dbHead ++ [DbWrite.complete loc])
    | ProcOutcome.err e =>
      (mem ++ [JStatus.failed e], dbHead ++ [DbWrite.fail e])
    | ProcOutcome.panicked => (mem, dbHead)

/-- The full sequence of status-map writes for one job id: enqueue
writes Queued first (queue.rs lines 66-69), then the worker writes. -/
def jobStatusTrace (env : WorkerEnv) (jobType : String) : List JStatus :=
  JStatus.queued :: (runJob env jobType).1

/-! ### Theorem for claim C1 -/

/-- A status write sequence matching the lifecycle grammar: Queued first,
then Processing with non-decreasing progress bounded by 100, then at most
one terminal write, and nothing after a terminal write. -/
def ValidStatusSeq (xs : List JStatus) : Prop :=
  ∃ ps rest,
    xs = JStatus.queued :: (ps.map JStatus.processing ++ rest)
    ∧ List.Chain' (fun a b => a ≤ b) ps
    ∧ (∀ p ∈ ps, p ≤ 100)
    ∧ (rest = [] ∨ (∃ u, rest = [JStatus.completed u])
        ∨ (∃ e, rest = [JStatus.failed e]))

/-- The possible progress-checkpoint sequences of one process_* call. -/
def ProgOk (l : List Nat) : Prop :=
  l = [] ∨ l = [20] ∨ l = [30] ∨ l = [20, 80] ∨ l = [30, 80]
    ∨ l = [20, 80, 100] ∨ l = [30, 80, 100]

/-- Helper: the checkpoint list of process_background_removal. -/
lemma prog_ok_bg (env : WorkerEnv) :
    ProgOk (process_background_removal env).1 := by
  unfold process_background_removal ProgOk
  repeat' split
  all_goals simp

/-- Helper: the checkpoint list of process_conversion. -/
lemma prog_ok_conv (env : WorkerEnv) :
    ProgOk (process_conversion env).1 := by
  unfold process_conversion ProgOk
  repeat' split
  all_goals simp

/-- Helper: the checkpoint list of process_color_grade. -/
lemma prog_ok_grade (env : WorkerEnv) :
    ProgOk (process_color_grade env).1 := by
  unfold process_color_grade ProgOk
  repeat' split
  all_goals simp

/-- Helper: the checkpoint list of the dispatcher. -/
lemma dispatch_prog_ok (env : WorkerEnv) (t : String) :
    ProgOk (dispatch env t).1 := by
  unfold dispatch
  split
  · exact prog_ok_bg env
  · exact prog_ok_conv env
  · exact prog_ok_grade env
  · simp [ProgOk]

/-- Helper: every allowed checkpoint list, preceded by the initial 0, is
non-decreasing and bounded by 100. -/
lemma progOk_chain (prog : List Nat) (hp : ProgOk prog) :
    List.Chain' (fun a b => a ≤ b) (0 :: prog)
      ∧ ∀ p ∈ 0 :: prog, p ≤ 100 := by
  rcases hp with rfl | rfl | rfl | rfl | rfl | rfl | rfl <;>
    exact ⟨by simp [List.chain'_cons], by simp⟩

/-- C1: for every environment (all outcomes of the external interactions)
and every job type string, the per-job sequence of status writes is
Queued, then Processing with monotonically non-decreasing progress within
0..100, then at most one terminal Completed or Failed write, with no
write after the terminal one. -/
theorem job_status_trace_valid :
    ∀ (env : WorkerEnv) (t : String),
      ValidStatusSeq (jobStatusTrace env t) := by
  intro env t
  unfold jobStatusTrace runJob
  cases hpj : env.parse_job_id with
  | error e =>
    exact ⟨[0], [], by simp, by simp [List.chain'_cons], by simp, Or.inl rfl⟩
  | ok u =>
    dsimp only
    obtain ⟨hchain, hbound⟩ :=
      progOk_chain (dispatch env t).1 (dispatch_prog_ok env t)
    cases ho : (dispatch env t).2 with
    | ok loc =>
      refine ⟨0 :: (dispatch env t).1, [JStatus.completed loc], ?_,
        hchain, hbound, Or.inr (Or.inl ⟨loc, rfl⟩)⟩
      simp
    | err msg =>
      refine ⟨0 :: (dispatch env t).1, [JStatus.failed msg], ?_,
        hchain, hbound, Or.inr (Or.inr ⟨msg, rfl⟩)⟩
      simp
    | panicked =>
      refine ⟨0 :: (dispatch env t).1, [], ?_, hchain, hbound, Or.inl rfl⟩
      simp

/-! ### Theorems for claim C2 -/

/-- Whether a status is the Failed terminal. -/
def JStatus.isFailed : JStatus → Bool
  | JStatus.failed _ => true
  | _ => false

/-- An environment whose only failure is a malformed job id; everything
after the job-id parse would succeed. -/
def envBadJobId : WorkerEnv :=
  { parse_job_id := Except.error "not a UUID"
    fetch_job := Except.ok (some ())
    parse_asset_ids := Except.ok ["a"]
    parse_asset_id := Except.ok ()
    fetch_asset := Except.ok (some ())
    bg_mode := BgMode.plainMode
    grade_mode := GradeMode.manualMode
    transform := Except.ok ()
    read_result := Except.ok ()
    save_result := Except.ok "out.png" }

/-- C2 counterexample: with a malformed job id the job certainly fails
(it is skipped and never completes), yet the worker writes no Failed
status anywhere: the status map holds Queued then Processing(0) forever
and the job record receives no write at all. -/
theorem worker_malformed_job_id_no_failed_write :
    ((jobStatusTrace envBadJobId "remove_bg").all
        fun s => !(JStatus.isFailed s)) = true
    ∧ (runJob envBadJobId "remove_bg").2 = []
    ∧ (jobStatusTrace envBadJobId "remove_bg")
        = [JStatus.queued, JStatus.processing 0] :=
  ⟨rfl, rfl, rfl⟩

/-- C2 amended: for every dequeued job whose job id does parse as a UUID,
every processing failure (job fetch error, missing job record, malformed
asset ids, malformed asset id, missing asset, transform error, result
read error, storage error, unknown job type) makes the worker finish by
writing the Failed status with the failure message to the status map and
the failure mark to the job record; a malformed job id instead skips the
job, leaving Processing(0) and writing nothing to the record. -/
theorem worker_failure_writes_failed_to_both_stores :
    ∀ (env : WorkerEnv) (t msg : String),
      env.parse_job_id = Except.ok () →
      (dispatch env t).2 = ProcOutcome.err msg →
      (runJob env t).1.getLast? = some (JStatus.failed msg)
        ∧ (runJob env t).2.getLast? = some (DbWrite.fail msg) := by
  intro env t msg hok herr
  unfold runJob
  rw [hok]
  dsimp only
  rw [herr]
  dsimp only
  constructor
  · rw [List.getLast?_concat]
  · rw [List.getLast?_concat]

/-- An environment whose transform call fails; all identifiers and
fetches succeed. -/
def envTransformFail : WorkerEnv :=
  { parse_job_id := Except.ok ()
    fetch_job := Except.ok (some ())
    parse_asset_ids := Except.ok ["a"]
    parse_asset_id := Except.ok ()
    fetch_asset := Except.ok (some ())
    bg_mode := BgMode.plainMode
    grade_mode := GradeMode.manualMode
    transform := Except.error "boom"
    read_result := Except.ok ()
    save_result := Except.ok "out.png" }

/-- Witness for the amended C2: a failing background-removal transform
ends with Failed in the status map and the failure mark in the record,
carrying the transform message. -/
theorem worker_failure_writes_failed_to_both_stores_witness :
    (runJob envTransformFail "remove_bg").1.getLast?
        = some (JStatus.failed "Background removal failed: boom")
      ∧ (runJob envTransformFail "remove_bg").2.getLast?
        = some (DbWrite.fail "Background removal failed: boom") :=
  worker_failure_writes_failed_to_both_stores envTransformFail "remove_bg"
    "Background removal failed: boom" rfl rfl

end MediaForge
